import Mathlib

/-!
Shallow embedding of the grid-layout geometry and input validation of
`src/bingo.py` (the `BingoBoardPositioner` class, the `generate` entry point
and the per-card tile-text selection of `mproc_generate_board`), together
with theorems settling the specification claims about them.

Python integers are modelled as `Int`.  Python `/` followed by `math.ceil`
on non-negative divisors is integer ceiling division; `math.floor(i / n)`
and `i % n` for a positive divisor `n` are `Int` euclidean division and
remainder, which agree with Python's floor-division semantics.
-/

set_option autoImplicit false

namespace CustomBingo

/-- Integer ceiling division (for a positive divisor), modelling Python's
`math.ceil(a / b)` on integer arguments. -/
def ceilDiv (a b : Int) : Int := -((-a) / b)

/-- The four border sizes, in the tuple order used by the source:
`(left, right, top, bottom)` (comment at `bingo.py:46`). -/
structure Borders where
  left : Int
  right : Int
  top : Int
  bottom : Int
deriving DecidableEq

/-- The fields computed by `BingoBoardPositioner.__init__` (`bingo.py:13-69`). -/
structure BingoBoardPositioner where
  cell_dims : Int × Int
  outline_width : Int
  cell_counts : Int × Int
  borders : Borders
  board_content_area : Int × Int
  board_area : Int × Int
  board_content_pos : List (Int × Int)
deriving DecidableEq

/-- `BingoBoardPositioner.__init__` (`bingo.py:14-69`).  When `cell_dims` is
`none`, cell dimensions are derived from `preferred_total_board_size` by
subtracting border and outline overhead and ceiling-dividing by the cell
count.  (If both optional arguments are `None` the Python code crashes on a
`None` subscript; the `getD (0, 0)` default is never reached by any caller.) -/
def mkBingoBoardPositioner (cell_counts : Int × Int) (outline_width : Int)
    (borders : Borders) (cell_dims : Option (Int × Int))
    (preferred_total_board_size : Option (Int × Int)) : BingoBoardPositioner :=
  let pref := preferred_total_board_size.getD (0, 0)
  let cd : Int × Int :=
    match cell_dims with
    | some d => d
    | none =>
        let total_cell_area : Int × Int :=
          (pref.1 - borders.left - borders.right
             - (outline_width * (cell_counts.1 + 3)),
           pref.2 - borders.top - borders.bottom
             - (outline_width * (cell_counts.2 + 3)))
        (ceilDiv total_cell_area.1 cell_counts.1,
         ceilDiv total_cell_area.2 cell_counts.2)
  let board_content_area : Int × Int :=
    ((outline_width * 4) + (outline_width * (cell_counts.1 - 1))
       + (cd.1 * cell_counts.1),
     (outline_width * 4) + (outline_width * (cell_counts.2 - 1))
       + (cd.2 * cell_counts.2))
  { cell_dims := cd
    outline_width := outline_width
    cell_counts := cell_counts
    borders := borders
    board_content_area := board_content_area
    board_area :=
      (board_content_area.1 + borders.left + borders.right,
       board_content_area.2 + borders.top + borders.bottom)
    board_content_pos :=
      [(borders.left, borders.top),
       (borders.left + board_content_area.1 - 1,
        borders.top + board_content_area.2 - 1)] }

/-- `BingoBoardPositioner.get_rect_position_for_index` (`bingo.py:72-88`):
top-left and bottom-right corner of cell `(x, y)`. -/
def get_rect_position_for_index (p : BingoBoardPositioner) (x y : Int) :
    List (Int × Int) :=
  let x_pos_1 := p.borders.left + (x * p.cell_dims.1)
    + (p.outline_width * 2) + (x * p.outline_width)
  let y_pos_1 := p.borders.top + (y * p.cell_dims.2)
    + (p.outline_width * 2) + (y * p.outline_width)
  let x_pos_2 := (x_pos_1 + p.cell_dims.1) - 1
  let y_pos_2 := (y_pos_1 + p.cell_dims.2) - 1
  [(x_pos_1, y_pos_1), (x_pos_2, y_pos_2)]

/-- `BingoBoardPositioner.get_rect_position_for_1d_index` (`bingo.py:91-95`). -/
def get_rect_position_for_1d_index (p : BingoBoardPositioner) (i : Int) :
    List (Int × Int) :=
  get_rect_position_for_index p (i % p.cell_counts.1) (i / p.cell_counts.1)

/-- Top-left corner of a rectangle represented as the two-element corner list
returned by the positioner. -/
def top_left (r : List (Int × Int)) : Int × Int := r.getD 0 (0, 0)

/-- Bottom-right corner of a rectangle represented as the two-element corner
list returned by the positioner. -/
def bottom_right (r : List (Int × Int)) : Int × Int := r.getD 1 (0, 0)

/-- Two corner-list rectangles (inclusive coordinates) do not overlap:
they are separated on at least one axis. -/
def rects_disjoint (r s : List (Int × Int)) : Prop :=
  (bottom_right r).1 < (top_left s).1 ∨ (bottom_right s).1 < (top_left r).1 ∨
  (bottom_right r).2 < (top_left s).2 ∨ (bottom_right s).2 < (top_left r).2

instance (r s : List (Int × Int)) : Decidable (rects_disjoint r s) := by
  unfold rects_disjoint
  infer_instance

/-- The corner-list rectangle `r` lies within the corner-list region `q`
(inclusive coordinates on both). -/
def rect_within (r q : List (Int × Int)) : Prop :=
  (top_left q).1 ≤ (top_left r).1 ∧ (top_left q).2 ≤ (top_left r).2 ∧
  (bottom_right r).1 ≤ (bottom_right q).1 ∧
  (bottom_right r).2 ≤ (bottom_right q).2

instance (r q : List (Int × Int)) : Decidable (rect_within r q) := by
  unfold rect_within
  infer_instance

/-- The fields of the `BingoGeneratorInfo` dataclass (`bingo.py:110-125`)
that the validation and layout logic of `generate` reads. -/
structure BingoGeneratorInfo where
  input_board_contents : List String
  number_of_cards : Int
  free_space : Bool
  free_random : Bool
  board_size : Int
  image_resolution : Int
  top_border_size : Int
  left_border_size : Int
  right_border_size : Int
  bottom_border_size : Int
  line_width : Int
deriving DecidableEq

/-- The `ValueError`s that `generate` (`bingo.py:282-300`) can raise, one
constructor per `raise` site, in source order. -/
inductive GenError where
  | numberOfCards
  | boardSize
  | freeSpaceParity
  | resolution
  | insufficientInput
  | borders
deriving DecidableEq

/-- The validation sequence at the top of `generate` (`bingo.py:280-300`):
the first failing check raises; all checks run before any layout object is
constructed. -/
def generateValidate (args : BingoGeneratorInfo) : Except GenError Unit :=
  if args.number_of_cards < 1 then .error .numberOfCards
  else if args.board_size < 2 then .error .boardSize
  else if args.board_size % 2 = 0 ∧ args.free_space = true ∧
      args.free_random = false then .error .freeSpaceParity
  else if args.image_resolution < 400 then .error .resolution
  else if (args.input_board_contents.length : Int) < args.board_size ^ 2 then
    .error .insufficientInput
  else if args.top_border_size < 0 ∨ args.left_border_size < 0 ∨
      args.right_border_size < 0 ∨ args.bottom_border_size < 0 then
    .error .borders
  else .ok ()

/-- `generate` up to the construction of the positioner (`bingo.py:280-314`):
validation runs first and a raised error prevents any layout work; on
success the positioner is built in fit-to-target mode from the square
resolution, with borders passed in the source's `(left, right, top, bottom)`
order. -/
def generateLayout (args : BingoGeneratorInfo) :
    Except GenError BingoBoardPositioner :=
  match generateValidate args with
  | .error e => .error e
  | .ok _ =>
      .ok (mkBingoBoardPositioner (args.board_size, args.board_size)
        args.line_width
        { left := args.left_border_size, right := args.right_border_size,
          top := args.top_border_size, bottom := args.bottom_border_size }
        none
        (some (args.image_resolution, args.image_resolution)))

/-- The free-space index chosen per card in `generate`'s loop
(`bingo.py:319-329`): `-1` when free spaces are off, a random cell when
`free_random` is on, otherwise `floor(total_cells / 2)`.  The random draw
is abstracted as the parameter `rnd`. -/
def free_space_index (free_space free_random : Bool) (total_cells : Int)
    (rnd : Int) : Int :=
  if free_space then
    (if free_random then rnd else total_cells / 2)
  else -1

/-- The text selected for tile `t` in `mproc_generate_board`
(`bingo.py:385-392`): `"FREE"` for the free tile, the sampled pool entry
otherwise. -/
def tile_text (tile_content_list : List String) (free_tile_index : Int)
    (t : Nat) : String :=
  if (t : Int) = free_tile_index then "FREE"
  else tile_content_list.getD t ""

/-- The fixed-cell example configuration: 5x5 cells, outline 5,
borders (10,10,10,10), explicit cell size 90x90. -/
def exampleFixedBoard : BingoBoardPositioner :=
  mkBingoBoardPositioner (5, 5) 5 ⟨10, 10, 10, 10⟩ (some (90, 90)) none

/-- The fit-to-target example configuration: target 512x512, 5x5 cells,
outline 5, borders (10,10,10,10). -/
def exampleFitBoard : BingoBoardPositioner :=
  mkBingoBoardPositioner (5, 5) 5 ⟨10, 10, 10, 10⟩ none (some (512, 512))

/-- A generator configuration whose fit-to-target size is too small for the
outline overhead (resolution 400, 2x2 board, outline 200), yet which passes
every check `generate` performs. -/
def degenerateArgs : BingoGeneratorInfo :=
  { input_board_contents := ["a", "b", "c", "d"]
    number_of_cards := 1
    free_space := false
    free_random := false
    board_size := 2
    image_resolution := 400
    top_border_size := 0
    left_border_size := 0
    right_border_size := 0
    bottom_border_size := 0
    line_width := 200 }

/-- A generator configuration with a 5x5 board but only ten pool lines. -/
def smallPoolArgs : BingoGeneratorInfo :=
  { input_board_contents := ["a", "b", "c", "d", "e", "f", "g", "h", "i", "j"]
    number_of_cards := 1
    free_space := false
    free_random := false
    board_size := 5
    image_resolution := 512
    top_border_size := 10
    left_border_size := 10
    right_border_size := 10
    bottom_border_size := 10
    line_width := 5 }

/-! ## Helper lemmas -/

theorem get_rect_position_for_index_eq (p : BingoBoardPositioner) (x y : Int) :
    get_rect_position_for_index p x y =
      [(p.borders.left + x * p.cell_dims.1 + p.outline_width * 2
          + x * p.outline_width,
        p.borders.top + y * p.cell_dims.2 + p.outline_width * 2
          + y * p.outline_width),
       (p.borders.left + x * p.cell_dims.1 + p.outline_width * 2
          + x * p.outline_width + p.cell_dims.1 - 1,
        p.borders.top + y * p.cell_dims.2 + p.outline_width * 2
          + y * p.outline_width + p.cell_dims.2 - 1)] := rfl

theorem mk_cell_dims_fixed (cc : Int × Int) (o : Int) (b : Borders)
    (cd : Int × Int) (pref : Option (Int × Int)) :
    (mkBingoBoardPositioner cc o b (some cd) pref).cell_dims = cd := rfl

theorem mk_cell_dims_fit (cc : Int × Int) (o : Int) (b : Borders)
    (pref : Int × Int) :
    (mkBingoBoardPositioner cc o b none (some pref)).cell_dims =
      (ceilDiv (pref.1 - b.left - b.right - o * (cc.1 + 3)) cc.1,
       ceilDiv (pref.2 - b.top - b.bottom - o * (cc.2 + 3)) cc.2) := rfl

theorem mk_outline_width (cc : Int × Int) (o : Int) (b : Borders)
    (cd : Option (Int × Int)) (pref : Option (Int × Int)) :
    (mkBingoBoardPositioner cc o b cd pref).outline_width = o := by
  cases cd <;> rfl

theorem mk_borders (cc : Int × Int) (o : Int) (b : Borders)
    (cd : Option (Int × Int)) (pref : Option (Int × Int)) :
    (mkBingoBoardPositioner cc o b cd pref).borders = b := by
  cases cd <;> rfl

theorem mk_cell_counts (cc : Int × Int) (o : Int) (b : Borders)
    (cd : Option (Int × Int)) (pref : Option (Int × Int)) :
    (mkBingoBoardPositioner cc o b cd pref).cell_counts = cc := by
  cases cd <;> rfl

theorem mk_board_content_area (cc : Int × Int) (o : Int) (b : Borders)
    (cd : Option (Int × Int)) (pref : Option (Int × Int)) :
    (mkBingoBoardPositioner cc o b cd pref).board_content_area =
      ((o * 4) + (o * (cc.1 - 1))
         + ((mkBingoBoardPositioner cc o b cd pref).cell_dims.1 * cc.1),
       (o * 4) + (o * (cc.2 - 1))
         + ((mkBingoBoardPositioner cc o b cd pref).cell_dims.2 * cc.2)) := by
  cases cd <;> rfl

theorem mk_board_area (cc : Int × Int) (o : Int) (b : Borders)
    (cd : Option (Int × Int)) (pref : Option (Int × Int)) :
    (mkBingoBoardPositioner cc o b cd pref).board_area =
      ((mkBingoBoardPositioner cc o b cd pref).board_content_area.1
         + b.left + b.right,
       (mkBingoBoardPositioner cc o b cd pref).board_content_area.2
         + b.top + b.bottom) := by
  cases cd <;> rfl

theorem mk_board_content_pos (cc : Int × Int) (o : Int) (b : Borders)
    (cd : Option (Int × Int)) (pref : Option (Int × Int)) :
    (mkBingoBoardPositioner cc o b cd pref).board_content_pos =
      [(b.left, b.top),
       (b.left + (mkBingoBoardPositioner cc o b cd pref).board_content_area.1 - 1,
        b.top + (mkBingoBoardPositioner cc o b cd pref).board_content_area.2 - 1)] := by
  cases cd <;> rfl

theorem generateValidate_eq_ok_iff (args : BingoGeneratorInfo) :
    generateValidate args = .ok () ↔
      ¬args.number_of_cards < 1 ∧ ¬args.board_size < 2 ∧
      ¬(args.board_size % 2 = 0 ∧ args.free_space = true ∧
          args.free_random = false) ∧
      ¬args.image_resolution < 400 ∧
      ¬((args.input_board_contents.length : Int) < args.board_size ^ 2) ∧
      ¬(args.top_border_size < 0 ∨ args.left_border_size < 0 ∨
          args.right_border_size < 0 ∨ args.bottom_border_size < 0) := by
  unfold generateValidate
  split_ifs with h1 h2 h3 h4 h5 h6 <;> simp_all

theorem generateValidate_eq_insufficient_iff (args : BingoGeneratorInfo) :
    generateValidate args = .error .insufficientInput ↔
      ¬args.number_of_cards < 1 ∧ ¬args.board_size < 2 ∧
      ¬(args.board_size % 2 = 0 ∧ args.free_space = true ∧
          args.free_random = false) ∧
      ¬args.image_resolution < 400 ∧
      (args.input_board_contents.length : Int) < args.board_size ^ 2 := by
  unfold generateValidate
  split_ifs with h1 h2 h3 h4 h5 h6 <;> simp_all

theorem le_mul_ceilDiv (a : Int) {b : Int} (hb : 0 < b) :
    a ≤ b * ceilDiv a b := by
  unfold ceilDiv
  have h1 : (-a) / b * b ≤ -a := Int.ediv_mul_le (-a) (by omega)
  have h2 : b * -((-a) / b) = -((-a) / b * b) := by ring
  linarith

theorem mul_ceilDiv_sub_one_lt (a : Int) {b : Int} (hb : 0 < b) :
    b * (ceilDiv a b - 1) < a := by
  unfold ceilDiv
  have h1 : -a < ((-a) / b + 1) * b := Int.lt_ediv_add_one_mul_self (-a) hb
  have h2 : ((-a) / b + 1) * b = b * ((-a) / b) + b := by ring
  have h3 : b * (-((-a) / b) - 1) = -(b * ((-a) / b)) - b := by ring
  omega

/-! ## Claim theorems -/

/-- C1: for every board configuration with cell counts `cx, cy ≥ 1` and
every cell index pair `(x, y)` with `0 ≤ x < cx` and `0 ≤ y < cy`,
`get_rect_position_for_index x y` returns exactly
`[(border_left + x*cell_w + outline*2 + x*outline,
   border_top + y*cell_h + outline*2 + y*outline),
  (x1 + cell_w - 1, y1 + cell_h - 1)]`. -/
theorem claim_rect_position_formula (cx cy o : Int) (b : Borders)
    (cd : Option (Int × Int)) (pref : Option (Int × Int)) (x y : Int)
    (hcx : 1 ≤ cx) (hcy : 1 ≤ cy)
    (hx0 : 0 ≤ x) (hx : x < cx) (hy0 : 0 ≤ y) (hy : y < cy) :
    get_rect_position_for_index (mkBingoBoardPositioner (cx, cy) o b cd pref) x y =
      [(b.left + x * (mkBingoBoardPositioner (cx, cy) o b cd pref).cell_dims.1
          + o * 2 + x * o,
        b.top + y * (mkBingoBoardPositioner (cx, cy) o b cd pref).cell_dims.2
          + o * 2 + y * o),
       (b.left + x * (mkBingoBoardPositioner (cx, cy) o b cd pref).cell_dims.1
          + o * 2 + x * o
          + (mkBingoBoardPositioner (cx, cy) o b cd pref).cell_dims.1 - 1,
        b.top + y * (mkBingoBoardPositioner (cx, cy) o b cd pref).cell_dims.2
          + o * 2 + y * o
          + (mkBingoBoardPositioner (cx, cy) o b cd pref).cell_dims.2 - 1)] := by
  rw [get_rect_position_for_index_eq, mk_borders, mk_outline_width]

/-- Witness for C1 at the fixed-cell example configuration, cell (1, 2). -/
theorem claim_rect_position_formula_witness :
    get_rect_position_for_index
        (mkBingoBoardPositioner (5, 5) 5 ⟨10, 10, 10, 10⟩ (some (90, 90)) none) 1 2 =
      [(10 + 1 * (mkBingoBoardPositioner (5, 5) 5 ⟨10, 10, 10, 10⟩
            (some (90, 90)) none).cell_dims.1 + 5 * 2 + 1 * 5,
        10 + 2 * (mkBingoBoardPositioner (5, 5) 5 ⟨10, 10, 10, 10⟩
            (some (90, 90)) none).cell_dims.2 + 5 * 2 + 2 * 5),
       (10 + 1 * (mkBingoBoardPositioner (5, 5) 5 ⟨10, 10, 10, 10⟩
            (some (90, 90)) none).cell_dims.1 + 5 * 2 + 1 * 5
          + (mkBingoBoardPositioner (5, 5) 5 ⟨10, 10, 10, 10⟩
            (some (90, 90)) none).cell_dims.1 - 1,
        10 + 2 * (mkBingoBoardPositioner (5, 5) 5 ⟨10, 10, 10, 10⟩
            (some (90, 90)) none).cell_dims.2 + 5 * 2 + 2 * 5
          + (mkBingoBoardPositioner (5, 5) 5 ⟨10, 10, 10, 10⟩
            (some (90, 90)) none).cell_dims.2 - 1)] :=
  claim_rect_position_formula 5 5 5 ⟨10, 10, 10, 10⟩ (some (90, 90)) none 1 2
    (by decide) (by decide) (by decide) (by decide) (by decide) (by decide)

/-- C2: in fit-to-target mode the derived cell width is the ceiling of
`(target_width - border_left - border_right - outline*(cx+3)) / cx` (the
least integer whose `cx`-multiple reaches the available width), and
analogously for the height; for target 512, cx = 5, outline = 5 and
border 10 on each side the derived cell size is `ceil(452/5) = 91`. -/
theorem claim_fit_cell_dims (cx cy o : Int) (b : Borders) (tw th : Int)
    (hcx : 1 ≤ cx) (hcy : 1 ≤ cy) :
    (tw - b.left - b.right - o * (cx + 3) ≤
        cx * (mkBingoBoardPositioner (cx, cy) o b none (some (tw, th))).cell_dims.1 ∧
      cx * ((mkBingoBoardPositioner (cx, cy) o b none (some (tw, th))).cell_dims.1 - 1) <
        tw - b.left - b.right - o * (cx + 3)) ∧
    (th - b.top - b.bottom - o * (cy + 3) ≤
        cy * (mkBingoBoardPositioner (cx, cy) o b none (some (tw, th))).cell_dims.2 ∧
      cy * ((mkBingoBoardPositioner (cx, cy) o b none (some (tw, th))).cell_dims.2 - 1) <
        th - b.top - b.bottom - o * (cy + 3)) ∧
    (mkBingoBoardPositioner (5, 5) 5 ⟨10, 10, 10, 10⟩ none
        (some (512, 512))).cell_dims = (91, 91) := by
  rw [mk_cell_dims_fit]
  refine ⟨⟨le_mul_ceilDiv _ (by omega), mul_ceilDiv_sub_one_lt _ (by omega)⟩,
    ⟨le_mul_ceilDiv _ (by omega), mul_ceilDiv_sub_one_lt _ (by omega)⟩, by decide⟩

/-- Witness for C2 at the 512-target example configuration. -/
theorem claim_fit_cell_dims_witness :
    (((512 : Int) - 10 - 10 - 5 * (5 + 3) ≤
        5 * (mkBingoBoardPositioner (5, 5) 5 ⟨10, 10, 10, 10⟩ none
          (some (512, 512))).cell_dims.1 ∧
      (5 : Int) * ((mkBingoBoardPositioner (5, 5) 5 ⟨10, 10, 10, 10⟩ none
          (some (512, 512))).cell_dims.1 - 1) <
        512 - 10 - 10 - 5 * (5 + 3)) ∧
    ((512 : Int) - 10 - 10 - 5 * (5 + 3) ≤
        5 * (mkBingoBoardPositioner (5, 5) 5 ⟨10, 10, 10, 10⟩ none
          (some (512, 512))).cell_dims.2 ∧
      (5 : Int) * ((mkBingoBoardPositioner (5, 5) 5 ⟨10, 10, 10, 10⟩ none
          (some (512, 512))).cell_dims.2 - 1) <
        512 - 10 - 10 - 5 * (5 + 3)) ∧
    (mkBingoBoardPositioner (5, 5) 5 ⟨10, 10, 10, 10⟩ none
        (some (512, 512))).cell_dims = (91, 91)) :=
  claim_fit_cell_dims 5 5 5 ⟨10, 10, 10, 10⟩ 512 512 (by decide) (by decide)

/-- C3: for every valid configuration (cell counts ≥ 1, cell dims ≥ 1,
outline ≥ 0, borders ≥ 0) and in-grid cells `(x, y)` and `(x', y')`:
distinct cells yield non-overlapping rectangles, a larger index on an axis
yields strictly larger coordinates on that axis, and the cell rectangle
lies within the region bounded by `board_content_pos`. -/
theorem claim_grid_invariants (cx cy cw ch o : Int) (b : Borders)
    (x y x' y' : Int)
    (hcx : 1 ≤ cx) (hcy : 1 ≤ cy) (hcw : 1 ≤ cw) (hch : 1 ≤ ch)
    (ho : 0 ≤ o) (hbl : 0 ≤ b.left) (hbr : 0 ≤ b.right)
    (hbt : 0 ≤ b.top) (hbb : 0 ≤ b.bottom)
    (hx0 : 0 ≤ x) (hx : x < cx) (hy0 : 0 ≤ y) (hy : y < cy)
    (hx0' : 0 ≤ x') (hx' : x' < cx) (hy0' : 0 ≤ y') (hy' : y' < cy) :
    (¬(x = x' ∧ y = y') →
      rects_disjoint
        (get_rect_position_for_index
          (mkBingoBoardPositioner (cx, cy) o b (some (cw, ch)) none) x y)
        (get_rect_position_for_index
          (mkBingoBoardPositioner (cx, cy) o b (some (cw, ch)) none) x' y')) ∧
    (x < x' →
      (top_left (get_rect_position_for_index
          (mkBingoBoardPositioner (cx, cy) o b (some (cw, ch)) none) x y)).1 <
        (top_left (get_rect_position_for_index
          (mkBingoBoardPositioner (cx, cy) o b (some (cw, ch)) none) x' y')).1 ∧
      (bottom_right (get_rect_position_for_index
          (mkBingoBoardPositioner (cx, cy) o b (some (cw, ch)) none) x y)).1 <
        (bottom_right (get_rect_position_for_index
          (mkBingoBoardPositioner (cx, cy) o b (some (cw, ch)) none) x' y')).1) ∧
    (y < y' →
      (top_left (get_rect_position_for_index
          (mkBingoBoardPositioner (cx, cy) o b (some (cw, ch)) none) x y)).2 <
        (top_left (get_rect_position_for_index
          (mkBingoBoardPositioner (cx, cy) o b (some (cw, ch)) none) x' y')).2 ∧
      (bottom_right (get_rect_position_for_index
          (mkBingoBoardPositioner (cx, cy) o b (some (cw, ch)) none) x y)).2 <
        (bottom_right (get_rect_position_for_index
          (mkBingoBoardPositioner (cx, cy) o b (some (cw, ch)) none) x' y')).2) ∧
    rect_within
      (get_rect_position_for_index
        (mkBingoBoardPositioner (cx, cy) o b (some (cw, ch)) none) x y)
      (mkBingoBoardPositioner (cx, cy) o b (some (cw, ch)) none).board_content_pos := by
  simp only [get_rect_position_for_index_eq, mk_cell_dims_fixed, mk_borders,
    mk_outline_width, mk_board_content_pos, mk_board_content_area,
    rects_disjoint, rect_within, top_left, bottom_right, List.getD_cons_zero,
    List.getD_cons_succ]
  refine ⟨?_, ?_, ?_, ?_⟩
  · intro hne
    rcases lt_trichotomy x x' with hlt | heq | hgt
    · left
      nlinarith [mul_le_mul_of_nonneg_right (show x + 1 ≤ x' by omega)
        (show (0 : Int) ≤ cw + o by omega)]
    · subst heq
      rcases lt_trichotomy y y' with hylt | hyeq | hygt
      · right; right; left
        nlinarith [mul_le_mul_of_nonneg_right (show y + 1 ≤ y' by omega)
          (show (0 : Int) ≤ ch + o by omega)]
      · exact absurd ⟨rfl, hyeq⟩ hne
      · right; right; right
        nlinarith [mul_le_mul_of_nonneg_right (show y' + 1 ≤ y by omega)
          (show (0 : Int) ≤ ch + o by omega)]
    · right; left
      nlinarith [mul_le_mul_of_nonneg_right (show x' + 1 ≤ x by omega)
        (show (0 : Int) ≤ cw + o by omega)]
  · intro hlt
    constructor
    · nlinarith [mul_le_mul_of_nonneg_right (show x + 1 ≤ x' by omega)
        (show (0 : Int) ≤ cw + o by omega)]
    · nlinarith [mul_le_mul_of_nonneg_right (show x + 1 ≤ x' by omega)
        (show (0 : Int) ≤ cw + o by omega)]
  · intro hlt
    constructor
    · nlinarith [mul_le_mul_of_nonneg_right (show y + 1 ≤ y' by omega)
        (show (0 : Int) ≤ ch + o by omega)]
    · nlinarith [mul_le_mul_of_nonneg_right (show y + 1 ≤ y' by omega)
        (show (0 : Int) ≤ ch + o by omega)]
  · refine ⟨?_, ?_, ?_, ?_⟩
    · nlinarith [mul_nonneg hx0 (show (0 : Int) ≤ cw + o by omega)]
    · nlinarith [mul_nonneg hy0 (show (0 : Int) ≤ ch + o by omega)]
    · nlinarith [mul_le_mul_of_nonneg_right (show x + 1 ≤ cx by omega)
        (show (0 : Int) ≤ cw by omega),
        mul_le_mul_of_nonneg_right (show x ≤ cx - 1 by omega)
        (show (0 : Int) ≤ o by omega)]
    · nlinarith [mul_le_mul_of_nonneg_right (show y + 1 ≤ cy by omega)
        (show (0 : Int) ≤ ch by omega),
        mul_le_mul_of_nonneg_right (show y ≤ cy - 1 by omega)
        (show (0 : Int) ≤ o by omega)]

/-- Witness for C3 at the fixed-cell example configuration,
cells (0, 0) and (4, 4). -/
theorem claim_grid_invariants_witness :
    (¬((0 : Int) = 4 ∧ (0 : Int) = 4) →
      rects_disjoint
        (get_rect_position_for_index
          (mkBingoBoardPositioner (5, 5) 5 ⟨10, 10, 10, 10⟩ (some (90, 90)) none) 0 0)
        (get_rect_position_for_index
          (mkBingoBoardPositioner (5, 5) 5 ⟨10, 10, 10, 10⟩ (some (90, 90)) none) 4 4)) ∧
    ((0 : Int) < 4 →
      (top_left (get_rect_position_for_index
          (mkBingoBoardPositioner (5, 5) 5 ⟨10, 10, 10, 10⟩ (some (90, 90)) none) 0 0)).1 <
        (top_left (get_rect_position_for_index
          (mkBingoBoardPositioner (5, 5) 5 ⟨10, 10, 10, 10⟩ (some (90, 90)) none) 4 4)).1 ∧
      (bottom_right (get_rect_position_for_index
          (mkBingoBoardPositioner (5, 5) 5 ⟨10, 10, 10, 10⟩ (some (90, 90)) none) 0 0)).1 <
        (bottom_right (get_rect_position_for_index
          (mkBingoBoardPositioner (5, 5) 5 ⟨10, 10, 10, 10⟩ (some (90, 90)) none) 4 4)).1) ∧
    ((0 : Int) < 4 →
      (top_left (get_rect_position_for_index
          (mkBingoBoardPositioner (5, 5) 5 ⟨10, 10, 10, 10⟩ (some (90, 90)) none) 0 0)).2 <
        (top_left (get_rect_position_for_index
          (mkBingoBoardPositioner (5, 5) 5 ⟨10, 10, 10, 10⟩ (some (90, 90)) none) 4 4)).2 ∧
      (bottom_right (get_rect_position_for_index
          (mkBingoBoardPositioner (5, 5) 5 ⟨10, 10, 10, 10⟩ (some (90, 90)) none) 0 0)).2 <
        (bottom_right (get_rect_position_for_index
          (mkBingoBoardPositioner (5, 5) 5 ⟨10, 10, 10, 10⟩ (some (90, 90)) none) 4 4)).2) ∧
    rect_within
      (get_rect_position_for_index
        (mkBingoBoardPositioner (5, 5) 5 ⟨10, 10, 10, 10⟩ (some (90, 90)) none) 0 0)
      (mkBingoBoardPositioner (5, 5) 5 ⟨10, 10, 10, 10⟩
        (some (90, 90)) none).board_content_pos :=
  claim_grid_invariants 5 5 90 90 5 ⟨10, 10, 10, 10⟩ 0 0 4 4
    (by decide) (by decide) (by decide) (by decide) (by decide) (by decide)
    (by decide) (by decide) (by decide) (by decide) (by decide) (by decide)
    (by decide) (by decide) (by decide) (by decide) (by decide)

/-- C5: in fit-to-target mode with cell counts ≥ 1 and non-negative outline
and borders, the realized `board_area` is at least the requested target on
each axis. -/
theorem claim_fit_board_area_ge_target (cx cy o : Int) (b : Borders)
    (tw th : Int) (hcx : 1 ≤ cx) (hcy : 1 ≤ cy) (ho : 0 ≤ o)
    (hbl : 0 ≤ b.left) (hbr : 0 ≤ b.right) (hbt : 0 ≤ b.top)
    (hbb : 0 ≤ b.bottom) :
    tw ≤ (mkBingoBoardPositioner (cx, cy) o b none (some (tw, th))).board_area.1 ∧
    th ≤ (mkBingoBoardPositioner (cx, cy) o b none (some (tw, th))).board_area.2 := by
  rw [mk_board_area, mk_board_content_area, mk_cell_dims_fit]
  have h1 := le_mul_ceilDiv (tw - b.left - b.right - o * (cx + 3))
    (show (0 : Int) < cx by omega)
  have h2 := le_mul_ceilDiv (th - b.top - b.bottom - o * (cy + 3))
    (show (0 : Int) < cy by omega)
  have e1 : cx * ceilDiv (tw - b.left - b.right - o * (cx + 3)) cx =
      ceilDiv (tw - b.left - b.right - o * (cx + 3)) cx * cx := mul_comm _ _
  have e2 : cy * ceilDiv (th - b.top - b.bottom - o * (cy + 3)) cy =
      ceilDiv (th - b.top - b.bottom - o * (cy + 3)) cy * cy := mul_comm _ _
  constructor
  · simp only [Prod.fst]
    nlinarith
  · simp only [Prod.snd]
    nlinarith

/-- Witness for C5 at the 512-target example configuration. -/
theorem claim_fit_board_area_ge_target_witness :
    (512 : Int) ≤ (mkBingoBoardPositioner (5, 5) 5 ⟨10, 10, 10, 10⟩ none
        (some (512, 512))).board_area.1 ∧
    (512 : Int) ≤ (mkBingoBoardPositioner (5, 5) 5 ⟨10, 10, 10, 10⟩ none
        (some (512, 512))).board_area.2 :=
  claim_fit_board_area_ge_target 5 5 5 ⟨10, 10, 10, 10⟩ 512 512
    (by decide) (by decide) (by decide) (by decide) (by decide) (by decide)
    (by decide)

/-- C6: for every configuration with `cx ≥ 1` and every `i ∈ [0, cx*cy)`,
`get_rect_position_for_1d_index i` equals
`get_rect_position_for_index (i % cx) (i / cx)`; the 1-D/2-D index mapping
is the bijection `index = y*cx + x` with inverse
`x = index % cx, y = index / cx`. -/
theorem claim_rect_1d_index (cx cy o : Int) (b : Borders)
    (cd : Option (Int × Int)) (pref : Option (Int × Int)) (i x y : Int)
    (hcx : 1 ≤ cx) (hcy : 1 ≤ cy) (hi0 : 0 ≤ i) (hi : i < cx * cy)
    (hx0 : 0 ≤ x) (hx : x < cx) (hy0 : 0 ≤ y) (hy : y < cy) :
    get_rect_position_for_1d_index
        (mkBingoBoardPositioner (cx, cy) o b cd pref) i =
      get_rect_position_for_index
        (mkBingoBoardPositioner (cx, cy) o b cd pref) (i % cx) (i / cx) ∧
    (i / cx) * cx + i % cx = i ∧
    0 ≤ i % cx ∧ i % cx < cx ∧ 0 ≤ i / cx ∧ i / cx < cy ∧
    (y * cx + x) % cx = x ∧ (y * cx + x) / cx = y ∧
    get_rect_position_for_1d_index
        (mkBingoBoardPositioner (cx, cy) o b cd pref) (y * cx + x) =
      get_rect_position_for_index
        (mkBingoBoardPositioner (cx, cy) o b cd pref) x y := by
  have hcx0 : cx ≠ 0 := by omega
  have hswap : y * cx + x = x + cx * y := by ring
  have hmod : (y * cx + x) % cx = x := by
    rw [hswap, Int.add_mul_emod_self_left, Int.emod_eq_of_lt hx0 hx]
  have hdiv : (y * cx + x) / cx = y := by
    rw [hswap, Int.add_mul_ediv_left x y hcx0,
      Int.ediv_eq_zero_of_lt hx0 hx, zero_add]
  refine ⟨?_, ?_, ?_, ?_, ?_, ?_, hmod, hdiv, ?_⟩
  · simp [get_rect_position_for_1d_index, mk_cell_counts]
  · exact Int.ediv_add_emod' i cx
  · exact Int.emod_nonneg i hcx0
  · exact Int.emod_lt_of_pos i (by omega)
  · exact Int.ediv_nonneg hi0 (by omega)
  · rw [Int.ediv_lt_iff_lt_mul (show (0 : Int) < cx by omega), mul_comm cy cx]
    exact hi
  · simp only [get_rect_position_for_1d_index, mk_cell_counts]
    rw [hmod, hdiv]

/-- Witness for C6 at the fixed-cell example configuration,
index 12 and cell (2, 2). -/
theorem claim_rect_1d_index_witness :
    get_rect_position_for_1d_index
        (mkBingoBoardPositioner (5, 5) 5 ⟨10, 10, 10, 10⟩ (some (90, 90)) none) 12 =
      get_rect_position_for_index
        (mkBingoBoardPositioner (5, 5) 5 ⟨10, 10, 10, 10⟩ (some (90, 90)) none)
        (12 % 5) (12 / 5) ∧
    ((12 : Int) / 5) * 5 + 12 % 5 = 12 ∧
    (0 : Int) ≤ 12 % 5 ∧ (12 : Int) % 5 < 5 ∧ (0 : Int) ≤ 12 / 5 ∧
    (12 : Int) / 5 < 5 ∧
    ((2 : Int) * 5 + 2) % 5 = 2 ∧ ((2 : Int) * 5 + 2) / 5 = 2 ∧
    get_rect_position_for_1d_index
        (mkBingoBoardPositioner (5, 5) 5 ⟨10, 10, 10, 10⟩ (some (90, 90)) none)
        (2 * 5 + 2) =
      get_rect_position_for_index
        (mkBingoBoardPositioner (5, 5) 5 ⟨10, 10, 10, 10⟩ (some (90, 90)) none) 2 2 :=
  claim_rect_1d_index 5 5 5 ⟨10, 10, 10, 10⟩ (some (90, 90)) none 12 2 2
    (by decide) (by decide) (by decide) (by decide) (by decide) (by decide)
    (by decide) (by decide)

/-- C7: for every configuration, `board_content_area` is
`outline*4 + outline*(cx-1) + cell_w*cx` on the width axis (analogously on
the height axis), and `board_area` adds the two borders of each axis. -/
theorem claim_area_formulas (cc : Int × Int) (o : Int) (b : Borders)
    (cd : Option (Int × Int)) (pref : Option (Int × Int)) :
    (mkBingoBoardPositioner cc o b cd pref).board_content_area =
      ((o * 4) + (o * (cc.1 - 1))
         + ((mkBingoBoardPositioner cc o b cd pref).cell_dims.1 * cc.1),
       (o * 4) + (o * (cc.2 - 1))
         + ((mkBingoBoardPositioner cc o b cd pref).cell_dims.2 * cc.2)) ∧
    (mkBingoBoardPositioner cc o b cd pref).board_area =
      ((mkBingoBoardPositioner cc o b cd pref).board_content_area.1
         + b.left + b.right,
       (mkBingoBoardPositioner cc o b cd pref).board_content_area.2
         + b.top + b.bottom) := by
  cases cd <;> exact ⟨rfl, rfl⟩

/-- C8 counterexample: with 5x5 cells, outline 5, borders (10,10,10,10) and
fixed cell size 90x90, `get_rect_position_for_index 4 4` does not return
`[(460, 460), (549, 549)]` (it returns `[(400, 400), (489, 489)]`). -/
theorem claim_fixed_example_counterexample :
    get_rect_position_for_index exampleFixedBoard 4 4 ≠
      [((460 : Int), (460 : Int)), (549, 549)] := by decide

/-- C8 (amended): for the fixed-cell configuration cx=cy=5, outline=5,
borders (10,10,10,10), cell size 90x90: `board_content_area` is 490 on each
axis, `board_area` is 510x510, `rect_for(0,0)` returns
`[(20,20),(109,109)]`, and `rect_for(4,4)` returns `[(400,400),(489,489)]`. -/
theorem claim_fixed_example_values :
    exampleFixedBoard.board_content_area = (490, 490) ∧
    exampleFixedBoard.board_area = (510, 510) ∧
    get_rect_position_for_index exampleFixedBoard 0 0 =
      [((20 : Int), (20 : Int)), (109, 109)] ∧
    get_rect_position_for_index exampleFixedBoard 4 4 =
      [((400 : Int), (400 : Int)), (489, 489)] := by decide

/-- The positioner that `generateLayout` builds for `degenerateArgs`:
fit-to-target 400x400 with outline 200 on a 2x2 grid. -/
def degenerateBoard : BingoBoardPositioner :=
  mkBingoBoardPositioner (2, 2) 200 ⟨0, 0, 0, 0⟩ none (some (400, 400))

/-- C4 counterexample: `degenerateArgs` (fit-to-target size too small to
fit 1-pixel cells) passes every check `generate` performs, construction
succeeds, and the resulting cell rectangles have negative size: nothing
fails at construction time. -/
theorem claim_construction_validation_counterexample :
    generateLayout degenerateArgs = .ok degenerateBoard ∧
    degenerateBoard.cell_dims.1 < 0 ∧
    (bottom_right (get_rect_position_for_index degenerateBoard 0 0)).1 <
      (top_left (get_rect_position_for_index degenerateBoard 0 0)).1 := by
  refine ⟨rfl, by decide, by decide⟩

/-- C4 (amended): the positioner constructor performs no validation and
silently yields zero- or negative-size rectangles on invalid input; the
checks `generate` runs before construction guarantee only a positive card
count, board size ≥ 2, resolution ≥ 400, a large-enough pool and
non-negative borders — never a non-negative outline or a target large
enough for 1-pixel cells. -/
theorem claim_construction_validation (args : BingoGeneratorInfo)
    (h : generateValidate args = .ok ()) :
    1 ≤ args.number_of_cards ∧ 2 ≤ args.board_size ∧
    400 ≤ args.image_resolution ∧
    (args.board_size ^ 2 : Int) ≤ (args.input_board_contents.length : Int) ∧
    0 ≤ args.top_border_size ∧ 0 ≤ args.left_border_size ∧
    0 ≤ args.right_border_size ∧ 0 ≤ args.bottom_border_size := by
  obtain ⟨h1, h2, h3, h4, h5, h6⟩ := (generateValidate_eq_ok_iff args).mp h
  push_neg at h6
  exact ⟨by omega, by omega, by omega, le_of_not_lt h5,
    by omega, by omega, by omega, by omega⟩

/-- Witness for the amended C4 at `degenerateArgs`, which validates. -/
theorem claim_construction_validation_witness :
    1 ≤ degenerateArgs.number_of_cards ∧ 2 ≤ degenerateArgs.board_size ∧
    400 ≤ degenerateArgs.image_resolution ∧
    (degenerateArgs.board_size ^ 2 : Int) ≤
      (degenerateArgs.input_board_contents.length : Int) ∧
    0 ≤ degenerateArgs.top_border_size ∧ 0 ≤ degenerateArgs.left_border_size ∧
    0 ≤ degenerateArgs.right_border_size ∧
    0 ≤ degenerateArgs.bottom_border_size :=
  claim_construction_validation degenerateArgs rfl

/-- C9: when the pool has fewer lines than `board_size ^ 2` (and the checks
that `generate` runs earlier pass), `generate` stops with the
insufficient-input error before any layout work, producing no positioner;
when the pool is large enough, that error is never raised. -/
theorem claim_insufficient_input (args : BingoGeneratorInfo) :
    (1 ≤ args.number_of_cards → 2 ≤ args.board_size →
      ¬(args.board_size % 2 = 0 ∧ args.free_space = true ∧
          args.free_random = false) →
      400 ≤ args.image_resolution →
      (args.input_board_contents.length : Int) < args.board_size ^ 2 →
      generateLayout args = .error .insufficientInput) ∧
    ((args.board_size ^ 2 : Int) ≤ (args.input_board_contents.length : Int) →
      generateValidate args ≠ .error .insufficientInput) := by
  constructor
  · intro hn hs hp hr hlen
    have hv : generateValidate args = .error .insufficientInput :=
      (generateValidate_eq_insufficient_iff args).mpr
        ⟨by omega, by omega, hp, by omega, hlen⟩
    unfold generateLayout
    rw [hv]
  · intro hle heq
    have hc := (generateValidate_eq_insufficient_iff args).mp heq
    exact absurd hc.2.2.2.2 (not_lt.mpr hle)

/-- Witness for C9 at `smallPoolArgs` (5x5 board, ten pool lines). -/
theorem claim_insufficient_input_witness :
    generateLayout smallPoolArgs = .error .insufficientInput :=
  (claim_insufficient_input smallPoolArgs).1 (by decide) (by decide)
    (by decide) (by decide) (by decide)

/-- C10: with `free_space` on and `free_random` off, the free tile index is
`floor(board_size^2 / 2)` for every card (independent of the random draw),
which is the exact center cell of an odd-sized board (it equals
`(size^2 - 1)/2` and maps to the middle cell `((size-1)/2, (size-1)/2)` of
the grid), and the text selected for that tile is `"FREE"` while every
other tile keeps its sampled pool entry. -/
theorem claim_free_space_center (size rnd : Int) (lst : List String) (t : Nat)
    (hodd : size % 2 = 1) (h3 : 3 ≤ size)
    (ht : (t : Int) ≠ size ^ 2 / 2) :
    free_space_index true false (size ^ 2) rnd = size ^ 2 / 2 ∧
    2 * (size ^ 2 / 2) + 1 = size ^ 2 ∧
    (size ^ 2 / 2) % size = (size - 1) / 2 ∧
    (size ^ 2 / 2) / size = (size - 1) / 2 ∧
    tile_text lst (size ^ 2 / 2) (size ^ 2 / 2).toNat = "FREE" ∧
    tile_text lst (size ^ 2 / 2) t = lst.getD t "" := by
  obtain ⟨k, hk⟩ : ∃ k : Int, size = 2 * k + 1 := ⟨size / 2, by omega⟩
  have hk1 : 1 ≤ k := by omega
  have e : size ^ 2 = 1 + 2 * (2 * k * k + 2 * k) := by rw [hk]; ring
  have hm : size ^ 2 / 2 = 2 * k * k + 2 * k := by
    rw [e, Int.add_mul_ediv_left 1 (2 * k * k + 2 * k)
      (by norm_num : (2 : Int) ≠ 0)]
    norm_num
  have hs1 : size - 1 = 2 * k := by omega
  have hhalf : (size - 1) / 2 = k := by
    rw [hs1, Int.mul_ediv_cancel_left k (by norm_num : (2 : Int) ≠ 0)]
  have hsplit : 2 * k * k + 2 * k = k + size * k := by rw [hk]; ring
  have hk0 : 0 ≤ k := by omega
  have hklt : k < size := by omega
  have hm0 : 0 ≤ size ^ 2 / 2 := by
    rw [hm]
    nlinarith
  refine ⟨?_, ?_, ?_, ?_, ?_, ?_⟩
  · simp [free_space_index]
  · rw [hm, hk]; ring
  · rw [hm, hsplit, Int.add_mul_emod_self_left,
      Int.emod_eq_of_lt hk0 hklt, hhalf]
  · rw [hm, hsplit, Int.add_mul_ediv_left k k (by omega : size ≠ 0),
      Int.ediv_eq_zero_of_lt hk0 hklt, zero_add, hhalf]
  · rw [tile_text, if_pos (Int.toNat_of_nonneg hm0)]
  · rw [tile_text, if_neg ht]

/-- Witness for C10 at board size 5 (free index 12, the center of 25
cells), a draw value 99 that is ignored, and tile 0. -/
theorem claim_free_space_center_witness :
    free_space_index true false ((5 : Int) ^ 2) 99 = 5 ^ 2 / 2 ∧
    2 * ((5 : Int) ^ 2 / 2) + 1 = 5 ^ 2 ∧
    ((5 : Int) ^ 2 / 2) % 5 = (5 - 1) / 2 ∧
    ((5 : Int) ^ 2 / 2) / 5 = (5 - 1) / 2 ∧
    tile_text ["a", "b"] ((5 : Int) ^ 2 / 2) ((5 : Int) ^ 2 / 2).toNat =
      "FREE" ∧
    tile_text ["a", "b"] ((5 : Int) ^ 2 / 2) 0 = ["a", "b"].getD 0 "" :=
  claim_free_space_center 5 99 ["a", "b"] 0 (by decide) (by decide)
    (by decide)

end CustomBingo
